import Mathlib

/-!
Shallow embedding of the twscrape fork's account / gmail / login_alternative
modules (src/twscrape/account.py, src/twscrape/gmail.py,
src/twscrape/login_alternative.py), together with theorems checking the
repository's natural-language specification against this code.

Conventions of the embedding:
* Python strings are Lean `String`s; the Python operations `str.lower`,
  `str.split(sep)`, `str.strip()` and the `in` containment test are modelled
  character-list-wise (`pyLower`, `pySplit`, `pyStrip`, `strContains`) so the
  kernel can evaluate them.
* Python exceptions become the `PyExn` sum; fallible code returns
  `Except PyExn α`.  `tenacity` retry decorators become explicit list-driven
  combinators (`retryWithFallback`, `retryWithRaise`) whose argument list holds
  one entry per attempt outcome; the randomized waits between attempts are
  timing behaviour with no effect on values and are not modelled.
* External collaborators (the DrissionPage browser surface, the Gmail REST
  service, the IMAP server, `datetime.strptime`) are passed in as explicit
  environments / capability functions, exactly at the call boundaries the
  source uses them.
-/

namespace Twscrape

/-! ## Python value primitives -/

/-- Python `str.lower()` (character-wise). -/
def pyLower (s : String) : String := ⟨s.data.map Char.toLower⟩

/-- Python `str.split(sep)` for a single-character separator: consecutive
separators yield empty segments, as in Python. -/
def pySplit (s : String) (sep : Char) : List String :=
  (s.data.splitOn sep).map String.mk

/-- Python `str.strip()`: drop whitespace from both ends. -/
def pyStrip (s : String) : String :=
  ⟨((s.data.dropWhile Char.isWhitespace).reverse.dropWhile Char.isWhitespace).reverse⟩

/-- Python `needle in hay` on strings. -/
def strContains (hay needle : String) : Bool :=
  (List.range (hay.data.length + 1)).any (fun i => needle.data.isPrefixOf (hay.data.drop i))

/-- Python truthiness of a `str`: nonempty. -/
def pyTruthyStr (s : String) : Bool := !s.data.isEmpty

/-- Python truthiness of a `str | None` value. -/
def pyTruthyOptStr : Option String → Bool
  | none => false
  | some s => pyTruthyStr s

/-- Python truthiness of a `dict | None` value (modelled as an association
list): truthy iff present and nonempty. -/
def pyTruthyDict : Option (List (String × String)) → Bool
  | none => false
  | some l => !l.isEmpty

/-! ## Exceptions and tenacity retry combinators -/

/-- The Python exception classes that can cross the module boundaries modelled
here.  `retryError` is `tenacity.RetryError`, raised when a retry ceiling is
exhausted without a `retry_error_callback`. -/
inductive PyExn where
  | elementNotFound
  | pageLoadError (msg : String)
  | elementLoadError (msg : String)
  | emailLoginError (msg : String)
  | httpError
  | noEmailFound
  | retryError
  | otherExn (msg : String)
deriving Repr, DecidableEq, Inhabited

instance {ε α : Type} [DecidableEq ε] [DecidableEq α] : DecidableEq (Except ε α) :=
  fun x y =>
    match x, y with
    | .ok a, .ok b =>
      if h : a = b then isTrue (by rw [h])
      else isFalse (by intro hc; cases hc; exact h rfl)
    | .error a, .error b =>
      if h : a = b then isTrue (by rw [h])
      else isFalse (by intro hc; cases hc; exact h rfl)
    | .ok _, .error _ => isFalse (by intro hc; cases hc)
    | .error _, .ok _ => isFalse (by intro hc; cases hc)

/-- `tenacity.retry` with `stop_after_attempt (length of the list)` and a
`retry_error_callback` returning `fallback`: the list holds the outcome of
each attempt in order; a successful attempt returns immediately, a retryable
failure moves to the next attempt, exhaustion yields `fallback`, and a
non-retryable exception is re-raised at once.  The second component counts the
attempts actually executed.  The configured inter-attempt wait only affects
timing, not values. -/
def retryWithFallback {α : Type} (isRetry : PyExn → Bool) (fallback : α) :
    List (Except PyExn α) → Except PyExn α × Nat
  | [] => (.ok fallback, 0)
  | a :: rest =>
    match a with
    | .ok v => (.ok v, 1)
    | .error e =>
      if isRetry e then
        match rest with
        | [] => (.ok fallback, 1)
        | b :: rest2 =>
          let r := retryWithFallback isRetry fallback (b :: rest2)
          (r.fst, r.snd + 1)
      else (.error e, 1)

/-- `tenacity.retry` / `tenacity.Retrying` without a callback: like
`retryWithFallback` but exhaustion raises `tenacity.RetryError`. -/
def retryWithRaise {α : Type} (isRetry : PyExn → Bool) :
    List (Except PyExn α) → Except PyExn α × Nat
  | [] => (.error .retryError, 0)
  | a :: rest =>
    match a with
    | .ok v => (.ok v, 1)
    | .error e =>
      if isRetry e then
        match rest with
        | [] => (.error .retryError, 1)
        | b :: rest2 =>
          let r := retryWithRaise isRetry (b :: rest2)
          (r.fst, r.snd + 1)
      else (.error e, 1)

/-! ## Timestamps (account.py uses `datetime` plus `utils.utc`) -/

/-- A UTC instant (`datetime.datetime`), abstracted to its timeline position. -/
structure DateTime where
  epochMillis : Int
deriving Repr, DecidableEq

/-- Modelled from the spec: persistence stores timestamps as ISO-8601 strings
(`utils.utc` and `datetime.isoformat`; `utils.py` is not under src/).  The
claims compare records "modulo timestamp formatting", so an ISO-8601 string is
identified with the instant it denotes; `DateTime.isoformat` and
`utc_from_iso` below are the two directions of that codec. -/
structure IsoTimestamp where
  instant : DateTime
deriving Repr, DecidableEq

/-- `datetime.isoformat()` under the identification above. -/
def DateTime.isoformat (d : DateTime) : IsoTimestamp := ⟨d⟩

/-- Modelled from the spec: `utils.utc.from_iso` parses an ISO-8601 string
back to the instant it denotes (`utils.py` is not under src/). -/
def utc_from_iso (s : IsoTimestamp) : DateTime := s.instant

/-! ## gmail.py: GmailCredentials -/

/-- `GmailCredentials` dataclass (gmail.py lines 19-35). -/
structure GmailCredentials where
  token : String
  refresh_token : String
  client_id : String
  client_secret : String
  scopes : List String
  token_uri : String
  universe_domain : String
  account : String
  expiry : String
deriving Repr, DecidableEq

/-! ## account.py: Account, persistence row, client proxy resolution -/

/-- `Account` dataclass (account.py lines 16-33).  The Python field `_tx` is
called `tx` here (Lean reserves a leading underscore at this position). -/
structure Account where
  username : String
  password : String
  email : String
  email_password : String
  user_agent : String
  active : Bool
  locks : List (String × DateTime)
  stats : List (String × Int)
  headers : List (String × String)
  cookies : List (String × String)
  gmail_credentials : Option GmailCredentials
  mfa_code : Option String
  proxy : Option String
  error_msg : Option String
  last_used : Option DateTime
  tx : Option String
deriving Repr, DecidableEq

/-- A JSON scalar, as needed by the `stats` column: `from_rs` keeps only the
`int`-valued entries of the decoded JSON object. -/
inductive JVal where
  | jnull
  | jbool (b : Bool)
  | jint (n : Int)
  | jstr (s : String)
deriving Repr, DecidableEq

/-- A persisted `sqlite3.Row` for an account.  JSON-encoded columns are
modelled by their decoded values (for the plain string/int maps and the
credentials bundle, `json.loads` after `json.dumps` is the identity, so the
text layer is elided); timestamp strings are `IsoTimestamp`. -/
structure AccountRow where
  username : String
  password : String
  email : String
  email_password : String
  user_agent : String
  active : Bool
  locks : List (String × IsoTimestamp)
  stats : List (String × JVal)
  headers : List (String × String)
  cookies : List (String × String)
  gmail_credentials : Option GmailCredentials
  mfa_code : Option String
  proxy : Option String
  error_msg : Option String
  last_used : Option IsoTimestamp
  tx : Option String
deriving Repr, DecidableEq

/-- `Account.to_rs` (account.py lines 48-57): `asdict`, then JSON-encode the
maps (`locks` values via `isoformat`), the credentials bundle via its JSON
trait, and `last_used` via `isoformat` when present. -/
def Account.to_rs (self : Account) : AccountRow :=
  { username := self.username
    password := self.password
    email := self.email
    email_password := self.email_password
    user_agent := self.user_agent
    active := self.active
    locks := self.locks.map (fun kv => (kv.1, kv.2.isoformat))
    stats := self.stats.map (fun kv => (kv.1, JVal.jint kv.2))
    headers := self.headers
    cookies := self.cookies
    gmail_credentials := self.gmail_credentials
    mfa_code := self.mfa_code
    proxy := self.proxy
    error_msg := self.error_msg
    last_used := self.last_used.map DateTime.isoformat
    tx := self.tx }

/-- `Account.from_rs` (account.py lines 35-46): decode `locks` values with
`utc.from_iso`, keep only `int`-valued `stats` entries, coerce `active` with
`bool(...)` (identity on booleans), decode `last_used` when the stored string
is truthy (ISO strings are never empty, so presence is the check). -/
def Account.from_rs (rs : AccountRow) : Account :=
  { username := rs.username
    password := rs.password
    email := rs.email
    email_password := rs.email_password
    user_agent := rs.user_agent
    active := rs.active
    locks := rs.locks.map (fun kv => (kv.1, utc_from_iso kv.2))
    stats := rs.stats.filterMap (fun kv =>
      match kv.2 with
      | JVal.jint n => some (kv.1, n)
      | _ => none)
    headers := rs.headers
    cookies := rs.cookies
    gmail_credentials := rs.gmail_credentials
    mfa_code := rs.mfa_code
    proxy := rs.proxy
    error_msg := rs.error_msg
    last_used := rs.last_used.map utc_from_iso
    tx := rs.tx }

/-- The proxy-resolution prelude of `Account.make_client` (account.py lines
59-62): collect `[proxy, os.getenv("TWS_PROXY"), self.proxy]`, drop the
`None`s, take the first survivor if any.  The environment lookup is an input;
the rest of `make_client` builds the HTTP client and is out of claim scope. -/
def Account.make_client_proxy (self : Account) (proxy : Option String)
    (tws_proxy_env : Option String) : Option String :=
  (([proxy, tws_proxy_env, self.proxy]).filterMap id).head?

/-! ## gmail.py: message parsing and inbox polling -/

/-- An RFC-822 message as `_parse_code` inspects it: the `Date`, `Subject` and
`From` headers (`sender` is the `From` header).  `message.get(h, "")` is
`Option.getD ""`. -/
structure EmailMessage where
  date : Option String
  subject : Option String
  sender : Option String
deriving Repr, DecidableEq

/-- `_parse_time` (gmail.py lines 68-82): empty input parses to `None`;
otherwise try `datetime.strptime` (an stdlib capability, passed in as
`strptime : format → input → parsed`) against the two known patterns in
order; both failing yields `None`. -/
def _parse_time (strptime : String → String → Option DateTime)
    (time_str : String) : Option DateTime :=
  if pyTruthyStr time_str = false then none
  else
    match strptime "%a, %d %b %Y %H:%M:%S %Z" time_str with
    | some d => some d
    | none =>
      match strptime "%a, %d %b %Y %H:%M:%S %z" time_str with
      | some d => some d
      | none => none

/-- `_parse_code` (gmail.py lines 85-116): parse the `Date` header (up to the
first parenthesis, stripped) for logging only; lowercase the `Subject` and
`From` headers; if the sender contains `info@x.com` and the subject contains
`confirmation code is`, return the last space-delimited token of the
lowercased subject, stripped; otherwise return `None`. -/
def _parse_code (strptime : String → String → Option DateTime)
    (email_message : EmailMessage) : Option String :=
  let msg_time_str := pyStrip ((pySplit (email_message.date.getD "") '(').headD "")
  let _msg_time := _parse_time strptime msg_time_str
  let msg_subj := pyLower (email_message.subject.getD "")
  let msg_from := pyLower (email_message.sender.getD "")
  if strContains msg_from "info@x.com" && strContains msg_subj "confirmation code is" then
    some (pyStrip ((pySplit msg_subj ' ').getLastD ""))
  else none

/-- Retryable classes for the `get_emails` search loop (gmail.py line 140):
`HttpError` and `NoEmailFoundError`. -/
def gmailSearchRetryable : PyExn → Bool
  | .httpError => true
  | .noEmailFound => true
  | _ => false

/-- Retryable class for `_read_message` (gmail.py line 119): `HttpError`. -/
def httpRetryable : PyExn → Bool
  | .httpError => true
  | _ => false

/-- The Gmail service as `get_emails` consumes it: per-attempt outcomes of the
unread-message listing (ids of the returned messages; `resultSizeEstimate` is
their count), per-message per-attempt outcomes of the raw read, and the
stdlib `strptime` capability. -/
structure GmailEnv where
  search : Nat → Except PyExn (List String)
  read : String → Nat → Except PyExn EmailMessage
  strptime : String → String → Option DateTime

/-- One body execution of the `get_emails` search loop (gmail.py lines
146-153): an API failure propagates; an empty listing raises
`NoEmailFoundError`. -/
def searchBody (r : Except PyExn (List String)) : Except PyExn (List String) :=
  match r with
  | .error e => .error e
  | .ok ids => if ids.length = 0 then .error .noEmailFound else .ok ids

/-- The `tenacity.Retrying` loop of `get_emails` (gmail.py lines 139-153):
retry `HttpError` / `NoEmailFoundError` up to `num_retries` attempts, raising
`RetryError` on exhaustion.  Also reports the number of attempts executed. -/
def get_emails_search (search : Nat → Except PyExn (List String))
    (num_retries : Nat) : Except PyExn (List String) × Nat :=
  retryWithRaise gmailSearchRetryable
    ((List.range num_retries).map (fun i => searchBody (search i)))

/-- `_read_message` (gmail.py lines 118-134): fetch one message by id, retried
on `HttpError` up to 5 attempts with jittered waits, raising `RetryError` on
exhaustion. -/
def _read_message (env : GmailEnv) (msg_id : String) : Except PyExn EmailMessage :=
  (retryWithRaise httpRetryable ((List.range 5).map (fun i => env.read msg_id i))).fst

/-- The message scan of `get_emails` (gmail.py lines 158-163): read each listed
message in order; the first truthy parsed code is returned (`if code := ...`),
a falsy parse moves on; a read failure propagates; no match leaves the final
`return None`. -/
def scanMessages (env : GmailEnv) : List String → Except PyExn (Option String)
  | [] => .ok none
  | msg_id :: rest =>
    match _read_message env msg_id with
    | .error e => .error e
    | .ok m =>
      match _parse_code env.strptime m with
      | some code =>
        if pyTruthyStr code then .ok (some code) else scanMessages env rest
      | none => scanMessages env rest

/-- `get_emails` (gmail.py lines 136-166): run the retrying search loop, then
scan the listed messages for a code; `None` when no message yields one. -/
def get_emails (env : GmailEnv) (num_retries : Nat) : Except PyExn (Option String) :=
  match (get_emails_search env.search num_retries).fst with
  | .error e => .error e
  | .ok ids => scanMessages env ids

/-! ## login_alternative.py: email-code selection, the browser login driver,
and the orchestration entry point -/

/-- An open `imaplib.IMAP4_SSL` session, opaque to this module
(`imap.py` is not under src/). -/
structure ImapSession where
  sessionId : Nat
deriving Repr, DecidableEq

/-- `get_email_code` (login_alternative.py lines 25-43): prefer the Gmail
strategy whenever credentials are present; otherwise use IMAP when both a
session and a truthy email address are given; otherwise return `None`.  The
two strategies (`gmail_get_email_code`, `imap_get_email_code`) live in other
modules and enter as capability functions; either may raise. -/
def get_email_code (username : String)
    (gmail_credentials : Option GmailCredentials)
    (imap : Option ImapSession) (email : Option String)
    (gmailFetch : GmailCredentials → Except PyExn (Option String))
    (imapFetch : ImapSession → String → Except PyExn (Option String)) :
    Except PyExn (Option String) :=
  match gmail_credentials with
  | some creds => gmailFetch creds
  | none =>
    match imap, email with
    | some session, some e =>
      if pyTruthyStr e then imapFetch session e else .ok none
    | _, _ => .ok none

/-- Retryable classes of the `login_with_drissionpage` decorator
(login_alternative.py line 61): `PageLoadError` and `ElementLoadError`. -/
def drissionRetryable : PyExn → Bool
  | .pageLoadError _ => true
  | .elementLoadError _ => true
  | _ => false

/-- The result type of one login attempt: `tuple[dict, dict]` on success or
`tuple[None, None]` on failure (cookies, headers). -/
def LoginOutcome : Type :=
  Option (List (String × String)) × Option (List (String × String))

instance : DecidableEq LoginOutcome := by
  unfold LoginOutcome; infer_instance

/-- What the browser surface presents during one attempt of
`login_with_drissionpage`, one field per `page.ele` wait in source order.
`True` means the element renders within its timeout.  The fields marked
"swallowed" correspond to waits whose `ElementNotFoundError` is caught inside
the surrounding `try` and therefore never affects the returned value. -/
structure UIEnv where
  loginSpanFound : Bool      -- line 112, "Phone, email, or username" (30s)
  nextAfterUsername : Bool   -- line 122, Next: unguarded, a miss raises out
  preCodeInput : Bool        -- line 125, confirmation-code input (5s)
  nextAfterPreCode : Bool    -- line 150, Next: unguarded, a miss raises out
  preEmailInput : Bool       -- line 157, email input (5s); swallowed stage
  nextAfterPreEmail : Bool   -- line 160, Next inside the try: swallowed
  passwordInput : Bool       -- line 167, password input (10s)
  loginButton : Bool         -- line 179, login button (10s)
  postCodeInput : Bool       -- line 188, confirmation-code input (5s)
  nextAfterPostCode : Bool   -- line 213, Next: unguarded, a miss raises out
  postEmailInput : Bool      -- line 220, email input (5s); swallowed stage
  nextAfterPostEmail : Bool  -- line 223, Next inside the try: swallowed
  mfaInput : Bool            -- line 229, MFA code input (5s)
  nextAfterMfa : Bool        -- line 241, Next inside the try: swallowed
  navBar : Bool              -- line 252, navigation-bar landmark (30s)
  cookies : List (String × String)  -- page.cookies(as_dict=True, all_info=True)
  headers : List (String × String)  -- page._headers
deriving Repr, DecidableEq

/-- Outcomes of the email-retrieval backends during one attempt, one pair per
`get_email_code` call site (before and after the password). -/
structure EmailEnv where
  gmailPre : GmailCredentials → Except PyExn (Option String)
  imapPre : ImapSession → String → Except PyExn (Option String)
  gmailPost : GmailCredentials → Except PyExn (Option String)
  imapPost : ImapSession → String → Except PyExn (Option String)

/-- One confirmation-code challenge block (login_alternative.py lines 124-153
and 187-216): when the code input renders, any exception from
`get_email_code` or a falsy code quits with `(None, None)`; a truthy code is
typed and the unguarded Next click runs (a miss raises
`ElementNotFoundError` out of the attempt); when the input never renders the
flow just continues (`k`). -/
def code_challenge (found nextFound : Bool)
    (fetch : Except PyExn (Option String))
    (k : Except PyExn LoginOutcome) : Except PyExn LoginOutcome :=
  if found then
    match fetch with
    | .error _ => .ok (none, none)
    | .ok code =>
      if pyTruthyOptStr code then
        if nextFound then k else .error PyExn.elementNotFound
      else .ok (none, none)
  else k

/-- One attempt of `login_with_drissionpage` (login_alternative.py lines
64-267), the body under the tenacity decorator.  The browser/profile setup
and `page.get(LOGIN_URL)` (lines 90-108) carry no result-relevant data.  The
email-input stages (lines 156-162, 219-225) and the Next click after the MFA
code (line 241) sit entirely inside their `try` blocks, so they cannot change
the returned value and are not branched on. -/
def login_attempt (username password : String) (email : Option String)
    (mfa_code : Option String) (user_agent : Option String)
    (imap : Option ImapSession)
    (gmail_credentials : Option GmailCredentials)
    (env : UIEnv) (ee : EmailEnv) : Except PyExn LoginOutcome :=
  if !env.loginSpanFound then
    .error (PyExn.pageLoadError "Failed to load the login page")
  else if !env.nextAfterUsername then
    .error PyExn.elementNotFound
  else
    code_challenge env.preCodeInput env.nextAfterPreCode
      (get_email_code username gmail_credentials imap email ee.gmailPre ee.imapPre)
      (if !env.passwordInput then
        .error (PyExn.elementLoadError "Password input element not found")
      else if !env.loginButton then
        .error (PyExn.elementLoadError "Login button not found")
      else
        code_challenge env.postCodeInput env.nextAfterPostCode
          (get_email_code username gmail_credentials imap email ee.gmailPost ee.imapPost)
          (if env.mfaInput && !(pyTruthyOptStr mfa_code) then
            .ok (none, none)
          else if !env.navBar then
            .ok (none, none)
          else
            .ok (some env.cookies, some env.headers)))

/-- The per-attempt outcomes of the three tenacity attempts of
`login_with_drissionpage`; each attempt gets its own fresh browser surface
(`envs i`) and backend outcomes (`ees i`). -/
def login_flow_attempts (username password : String) (email : Option String)
    (mfa_code : Option String) (user_agent : Option String)
    (imap : Option ImapSession)
    (gmail_credentials : Option GmailCredentials)
    (envs : Nat → UIEnv) (ees : Nat → EmailEnv) :
    List (Except PyExn LoginOutcome) :=
  (List.range 3).map (fun i =>
    login_attempt username password email mfa_code user_agent imap
      gmail_credentials (envs i) (ees i))

/-- `login_with_drissionpage` (login_alternative.py lines 57-267): the attempt
body under `tenacity.retry(stop_after_attempt(3), wait_fixed(5),
retry_if_exception_type((PageLoadError, ElementLoadError)),
retry_error_callback=return_none_anyway)`; exhaustion of retryable failures
returns `(None, None)` via `return_none_anyway`, anything non-retryable is
re-raised. -/
def login_with_drissionpage (username password : String) (email : Option String)
    (mfa_code : Option String) (user_agent : Option String)
    (imap : Option ImapSession)
    (gmail_credentials : Option GmailCredentials)
    (envs : Nat → UIEnv) (ees : Nat → EmailEnv) : Except PyExn LoginOutcome :=
  (retryWithFallback drissionRetryable (none, none)
    (login_flow_attempts username password email mfa_code user_agent imap
      gmail_credentials envs ees)).fst

/-- The number of attempts `login_with_drissionpage` actually executes. -/
def login_with_drissionpage_attempts_used (username password : String)
    (email : Option String) (mfa_code : Option String)
    (user_agent : Option String) (imap : Option ImapSession)
    (gmail_credentials : Option GmailCredentials)
    (envs : Nat → UIEnv) (ees : Nat → EmailEnv) : Nat :=
  (retryWithFallback drissionRetryable (none, none)
    (login_flow_attempts username password email mfa_code user_agent imap
      gmail_credentials envs ees)).snd

/-- Modelled from the spec: the login-configuration object (`login.py` is not
under src/); `login_alternative` reads only the three flags used below. -/
structure LoginConfig where
  email_first : Bool
  manual : Bool
  gmail : Bool
deriving Repr, DecidableEq

/-- Modelled from the spec: the default-constructed `LoginConfig()`
(`login.py` is not under src/); the flag defaults are unspecified there and
no theorem below depends on them. -/
def defaultLoginConfig : LoginConfig := ⟨false, false, false⟩

/-- The gmail-credential selection of `login_alternative` (lines 281-282):
adopt the account's bundle only when the config enables gmail and the bundle
is present (`gmail_creds` is `None` beforehand, so `not gmail_creds` always
holds). -/
def gmailCredSelect (cfg : LoginConfig) (acc : Account) : Option GmailCredentials :=
  if cfg.gmail && acc.gmail_credentials.isSome then acc.gmail_credentials else none

/-- `login_alternative` (login_alternative.py lines 270-302): return the
account untouched when already active; otherwise optionally open an IMAP
session (its failure raises out of the function), select gmail credentials,
run the driver (note: the freshly opened `imap` session is NOT passed on, the
driver call at lines 285-293 omits the `imap` argument), and fold the outcome
back into the account: both dicts truthy sets `active`, `headers`, `cookies`;
anything else sets `active = False`.  No other field is written. -/
def login_alternative (acc : Account) (cfg : Option LoginConfig)
    (imap_login : String → String → Except PyExn ImapSession)
    (envs : Nat → UIEnv) (ees : Nat → EmailEnv) : Except PyExn Account :=
  if acc.active then .ok acc
  else
    let c := cfg.getD defaultLoginConfig
    let imapRes : Except PyExn (Option ImapSession) :=
      if c.email_first && !c.manual then
        match imap_login acc.email acc.email_password with
        | .ok s => .ok (some s)
        | .error e => .error e
      else .ok none
    match imapRes with
    | .error e => .error e
    | .ok _imap =>
      match login_with_drissionpage acc.username acc.password (some acc.email)
          acc.mfa_code (some acc.user_agent) none (gmailCredSelect c acc)
          envs ees with
      | .error e => .error e
      | .ok (cookies, headers) =>
        if pyTruthyDict cookies && pyTruthyDict headers then
          .ok { acc with
                active := true
                headers := (headers.getD []).map (fun kv => (kv.1, kv.2))
                cookies := (cookies.getD []).map (fun kv => (kv.1, kv.2)) }
        else
          .ok { acc with active := false }

/-! ## Concrete instances used by witnesses and counterexamples -/

/-- A concrete `datetime.strptime` capability that parses nothing; used where
a closed statement needs some stdlib instance and the result does not depend
on it. -/
def strptimeNone : String → String → Option DateTime := fun _ _ => none

/-- The spec's own words for the extraction result: "the final
whitespace-delimited token of the subject line". -/
def spec_finalWhitespaceToken (s : String) : String :=
  ((s.data.splitOnP Char.isWhitespace).map String.mk).getLastD ""

/-- The spec's synthetic qualifying message. -/
def msg739201 : EmailMessage :=
  { date := some "Thu, 15 Aug 2024 23:40:30 GMT"
    subject := some "Your Twitter confirmation code is 739201"
    sender := some "info@x.com" }

/-- The spec's "any other sender" message: same subject, foreign sender. -/
def msgOtherSender : EmailMessage :=
  { date := some "Thu, 15 Aug 2024 23:40:30 GMT"
    subject := some "Your Twitter confirmation code is 739201"
    sender := some "security@notx.example" }

/-- A qualifying message whose code contains uppercase letters, with an
unparsable date header. -/
def msgUpperCode : EmailMessage :=
  { date := some "not ( a date"
    subject := some "Your Twitter confirmation code is ABC123"
    sender := some "Info@X.com" }

/-- A concrete account with nonempty `locks`, `stats` and `cookies`. -/
def sampleAccount : Account :=
  { username := "alice"
    password := "hunter2"
    email := "alice@example.org"
    email_password := "mailpass"
    user_agent := "UA/1.0"
    active := false
    locks := [("SearchTimeline", ⟨1723765230000⟩), ("UserByScreenName", ⟨1723765231500⟩)]
    stats := [("SearchTimeline", 41), ("UserByScreenName", 7)]
    headers := [("authorization", "Bearer t")]
    cookies := [("ct0", "abc"), ("auth_token", "def")]
    gmail_credentials := some
      { token := "tok", refresh_token := "ref", client_id := "cid"
        client_secret := "sec", scopes := ["https://www.googleapis.com/auth/gmail.readonly"]
        token_uri := "https://oauth2.googleapis.com/token"
        universe_domain := "googleapis.com", account := "", expiry := "" }
    mfa_code := some "JBSWY3DPEHPK3PXP"
    proxy := some "http://proxy.example:8080"
    error_msg := some "previous error"
    last_used := some ⟨1723765000000⟩
    tx := some "tx1" }

/-! ## C10: proxy resolution precedence in `Account.make_client` -/

/-- C10: `Account.make_client` resolves the proxy by fixed precedence — the
explicit argument when not `None`, else the `TWS_PROXY` environment value
when set, else the account's own `proxy` field, else no proxy; for every
combination the first non-`None` in that order is used. -/
theorem make_client_proxy_precedence (a : Account) (p e : Option String) :
    Account.make_client_proxy a p e =
      match p, e, a.proxy with
      | some x, _, _ => some x
      | none, some y, _ => some y
      | none, none, z => z := by
  cases p <;> cases e <;> cases h : a.proxy <;>
    simp [Account.make_client_proxy, h]

/-! ## C3: persistence round trip -/

/-- Encoding then decoding the `locks` column is the identity. -/
lemma locks_roundtrip (l : List (String × DateTime)) :
    (l.map (fun kv => (kv.1, kv.2.isoformat))).map
      (fun kv => (kv.1, utc_from_iso kv.2)) = l := by
  induction l with
  | nil => rfl
  | cons hd tl ih => exact congrArg (fun t => hd :: t) ih

/-- Encoding then decoding the `stats` column is the identity: all written
values are ints, so the `isinstance(v, int)` filter of `from_rs` keeps
everything. -/
lemma stats_roundtrip (l : List (String × Int)) :
    (l.map (fun kv => (kv.1, JVal.jint kv.2))).filterMap
      (fun kv =>
        match kv.2 with
        | JVal.jint n => some (kv.1, n)
        | _ => none) = l := by
  induction l with
  | nil => rfl
  | cons hd tl ih => exact congrArg (fun t => hd :: t) ih

/-- Encoding then decoding `last_used` is the identity. -/
lemma last_used_roundtrip (o : Option DateTime) :
    (o.map DateTime.isoformat).map utc_from_iso = o := by
  cases o <;> rfl

/-- C3: an `Account` with nonempty `locks`, `stats` and `cookies` maps,
serialized with `to_rs` and re-read with `from_rs`, is structurally equal to
the original, field for field (timestamps compared modulo formatting, i.e.
as the instants the ISO strings denote). -/
theorem account_to_rs_from_rs_roundtrip (a : Account)
    (h1 : a.locks ≠ []) (h2 : a.stats ≠ []) (h3 : a.cookies ≠ []) :
    Account.from_rs (Account.to_rs a) = a := by
  cases a
  simp only [Account.to_rs, Account.from_rs, Account.mk.injEq,
    eq_self_iff_true, true_and, and_true]
  exact ⟨locks_roundtrip _, stats_roundtrip _, last_used_roundtrip _⟩

/-- Witness for C3 at a concrete account. -/
theorem account_to_rs_from_rs_roundtrip_witness :
    sampleAccount.locks ≠ [] ∧ sampleAccount.stats ≠ [] ∧
      sampleAccount.cookies ≠ [] ∧
      Account.from_rs (Account.to_rs sampleAccount) = sampleAccount :=
  ⟨by decide, by decide, by decide,
    account_to_rs_from_rs_roundtrip sampleAccount (by decide) (by decide) (by decide)⟩

/-! ## C6: email code extraction -/

/-- C6 counterexample: the claim says the returned code is the final
whitespace-delimited token of the subject line, but `_parse_code` lowercases
the subject before splitting, so a qualifying message whose code contains
uppercase letters yields the lowercased token instead (here also with an
unparsable `Date` header, which indeed does not block extraction). -/
theorem parse_code_lowercases_the_code :
    _parse_code strptimeNone msgUpperCode = some "abc123" ∧
      spec_finalWhitespaceToken "Your Twitter confirmation code is ABC123" = "ABC123" ∧
      ("abc123" : String) ≠ "ABC123" :=
  ⟨by decide, by decide, by decide⟩

/-- C6 amended: `_parse_code` returns a code exactly when the `From` header
contains `info@x.com` and the `Subject` contains `confirmation code is`, both
case-insensitively, and the returned code is the final space-delimited token
of the LOWERCASED subject, stripped of surrounding whitespace; the spec's two
examples hold, and the result never depends on the `Date` header parser. -/
theorem parse_code_spec (strptime : String → String → Option DateTime)
    (m : EmailMessage) :
    (_parse_code strptime m =
      if strContains (pyLower (m.sender.getD "")) "info@x.com" &&
          strContains (pyLower (m.subject.getD "")) "confirmation code is"
      then some (pyStrip ((pySplit (pyLower (m.subject.getD "")) ' ').getLastD ""))
      else none) ∧
    _parse_code strptime m = _parse_code strptimeNone m ∧
    _parse_code strptime msg739201 = some "739201" ∧
    _parse_code strptime msgOtherSender = none :=
  ⟨rfl, rfl, rfl, rfl⟩

/-! ## Generic facts about the tenacity combinators -/

/-- An attempt outcome that a given retry predicate classifies as retryable. -/
def failedRetryably {α : Type} (isR : PyExn → Bool) : Except PyExn α → Bool
  | .error e => isR e
  | .ok _ => false

lemma retryWithRaise_all_fail {α : Type} (isR : PyExn → Bool)
    (l : List (Except PyExn α)) (hne : l ≠ [])
    (hfail : ∀ a ∈ l, failedRetryably isR a = true) :
    retryWithRaise isR l = (.error .retryError, l.length) := by
  induction l with
  | nil => exact absurd rfl hne
  | cons a rest ih =>
    have ha := hfail a (List.mem_cons_self a rest)
    cases hf : a with
    | ok v => rw [hf] at ha; simp [failedRetryably] at ha
    | error e =>
      rw [hf] at ha
      have hre : isR e = true := by simpa [failedRetryably] using ha
      cases rest with
      | nil => simp [retryWithRaise, hre]
      | cons b rest2 =>
        have ihr := ih (by simp) (fun x hx => hfail x (List.mem_cons_of_mem _ hx))
        simp [retryWithRaise, hre, ihr]

lemma retryWithRaise_prefix_fail_then_ok {α : Type} (isR : PyExn → Bool)
    (l1 : List (Except PyExn α)) (v : α) (l2 : List (Except PyExn α))
    (hfail : ∀ a ∈ l1, failedRetryably isR a = true) :
    retryWithRaise isR (l1 ++ .ok v :: l2) = (.ok v, l1.length + 1) := by
  induction l1 with
  | nil => simp [retryWithRaise]
  | cons a rest ih =>
    have ha := hfail a (List.mem_cons_self a rest)
    cases hf : a with
    | ok w => rw [hf] at ha; simp [failedRetryably] at ha
    | error e =>
      rw [hf] at ha
      have hre : isR e = true := by simpa [failedRetryably] using ha
      have ihr := ih (fun x hx => hfail x (List.mem_cons_of_mem _ hx))
      cases hrest : rest ++ .ok v :: l2 with
      | nil => exact absurd hrest (by simp)
      | cons b rest2 =>
        rw [hrest] at ihr
        simp [retryWithRaise, hre, hrest, ihr]

lemma retryWithFallback_all_fail {α : Type} (isR : PyExn → Bool) (fb : α)
    (l : List (Except PyExn α)) (hne : l ≠ [])
    (hfail : ∀ a ∈ l, failedRetryably isR a = true) :
    retryWithFallback isR fb l = (.ok fb, l.length) := by
  induction l with
  | nil => exact absurd rfl hne
  | cons a rest ih =>
    have ha := hfail a (List.mem_cons_self a rest)
    cases hf : a with
    | ok v => rw [hf] at ha; simp [failedRetryably] at ha
    | error e =>
      rw [hf] at ha
      have hre : isR e = true := by simpa [failedRetryably] using ha
      cases rest with
      | nil => simp [retryWithFallback, hre]
      | cons b rest2 =>
        have ihr := ih (by simp) (fun x hx => hfail x (List.mem_cons_of_mem _ hx))
        simp [retryWithFallback, hre, ihr]

lemma retryWithFallback_head_ok {α : Type} (isR : PyExn → Bool) (fb v : α)
    (rest : List (Except PyExn α)) :
    retryWithFallback isR fb (.ok v :: rest) = (.ok v, 1) := by
  simp [retryWithFallback]

lemma retryWithFallback_head_nonretryable {α : Type} (isR : PyExn → Bool) (fb : α)
    (e : PyExn) (hnr : isR e = false) (rest : List (Except PyExn α)) :
    retryWithFallback isR fb (.error e :: rest) = (.error e, 1) := by
  cases rest <;> simp [retryWithFallback, hnr]

/-- Splitting `(List.range n).map f` at an index below `n`. -/
lemma range_map_split_at {α : Type} (f : Nat → α) (n i : Nat) (hi : i < n) :
    ∃ l2, (List.range n).map f = ((List.range i).map f) ++ f i :: l2 := by
  have hn : n = (i + 1) + (n - i - 1) := by omega
  refine ⟨(List.range (n - i - 1)).map (f ∘ fun x => (i + 1) + x), ?_⟩
  conv_lhs => rw [hn, List.range_add]
  simp [List.range_succ]

/-! ## C5: retry policy of the mailbox-API retrieval -/

/-- A Gmail environment whose unread listing always fails with `HttpError`. -/
def gmailEnvAllHttpFail : GmailEnv :=
  { search := fun _ => .error .httpError
    read := fun _ _ => .ok msg739201
    strptime := strptimeNone }

/-- A Gmail environment whose listing fails once with `HttpError` and then
returns one unread message containing a valid code. -/
def gmailEnvSecondTry : GmailEnv :=
  { search := fun i => if i = 0 then .error .httpError else .ok ["m1"]
    read := fun _ _ => .ok msg739201
    strptime := strptimeNone }

/-- A Gmail environment whose first listing immediately returns one unread
message that does NOT qualify (foreign sender). -/
def gmailEnvNonQualifying : GmailEnv :=
  { search := fun _ => .ok ["m1"]
    read := fun _ _ => .ok msgOtherSender
    strptime := strptimeNone }

/-- C5 counterexample: with one unread message present whose sender does not
qualify, `get_emails` returns no code after a SINGLE search attempt — the
"no qualifying confirmation-code message found" condition is neither retried
up to the ceiling nor turned into a failure; retrieval ends silently with no
code.  (Only the empty-inbox condition raises the retryable
`NoEmailFoundError`.) -/
theorem get_emails_no_qualifying_message_not_retried :
    get_emails gmailEnvNonQualifying 5 = .ok none ∧
      (get_emails_search gmailEnvNonQualifying.search 5).snd = 1 :=
  ⟨by decide, by decide⟩

/-- C5 amended: in `get_emails`, transient API errors (`HttpError`) and the
empty-unread-inbox condition (`NoEmailFoundError`) are retried up to the
attempt ceiling `num_retries`, after which retrieval fails by raising
`tenacity.RetryError` rather than returning; a successful listing stops the
retry loop at its attempt index and hands the listed messages to the scan.
(When the scan then finds no qualifying message, `get_emails` returns no
code without further search attempts — see the counterexample.) -/
theorem get_emails_retry_policy :
    (∀ (env : GmailEnv) (n : Nat), 1 ≤ n →
      (∀ j, j < n → failedRetryably gmailSearchRetryable (searchBody (env.search j)) = true) →
      get_emails env n = .error PyExn.retryError ∧
        (get_emails_search env.search n).snd = n) ∧
    (∀ (env : GmailEnv) (n i : Nat) (ids : List String), i < n →
      (∀ j, j < i → failedRetryably gmailSearchRetryable (searchBody (env.search j)) = true) →
      searchBody (env.search i) = .ok ids →
      get_emails env n = scanMessages env ids ∧
        (get_emails_search env.search n).snd = i + 1) := by
  constructor
  · intro env n hn hfail
    have hne : (List.range n).map (fun j => searchBody (env.search j)) ≠ [] := by
      simp [List.range_eq_nil]
      omega
    have hmem : ∀ a ∈ (List.range n).map (fun j => searchBody (env.search j)),
        failedRetryably gmailSearchRetryable a = true := by
      intro a hmem
      obtain ⟨j, hj, rfl⟩ := List.mem_map.mp hmem
      exact hfail j (List.mem_range.mp hj)
    have hsearch := retryWithRaise_all_fail gmailSearchRetryable _ hne hmem
    have hlen : ((List.range n).map (fun j => searchBody (env.search j))).length = n := by
      simp
    rw [hlen] at hsearch
    refine ⟨?_, ?_⟩
    · unfold get_emails get_emails_search
      rw [hsearch]
    · unfold get_emails_search
      rw [hsearch]
  · intro env n i ids hi hfail hok
    obtain ⟨l2, hsplit⟩ := range_map_split_at (fun j => searchBody (env.search j)) n i hi
    simp only [hok] at hsplit
    have hmem : ∀ a ∈ (List.range i).map (fun j => searchBody (env.search j)),
        failedRetryably gmailSearchRetryable a = true := by
      intro a hmem
      obtain ⟨j, hj, rfl⟩ := List.mem_map.mp hmem
      exact hfail j (List.mem_range.mp hj)
    have hsearch :
        retryWithRaise gmailSearchRetryable
          ((List.range n).map (fun j => searchBody (env.search j))) = (.ok ids, i + 1) := by
      rw [hsplit]
      have hres := retryWithRaise_prefix_fail_then_ok gmailSearchRetryable
        ((List.range i).map (fun j => searchBody (env.search j))) ids l2 hmem
      simpa using hres
    refine ⟨?_, ?_⟩
    · unfold get_emails get_emails_search
      rw [hsearch]
    · unfold get_emails_search
      rw [hsearch]

/-- Witness for C5's amended statement at concrete environments: five
`HttpError` listings exhaust the ceiling and raise; an `HttpError` followed
by a successful listing stops after two attempts and scans the listed
message (yielding its code). -/
theorem get_emails_retry_policy_witness :
    (get_emails gmailEnvAllHttpFail 5 = .error PyExn.retryError ∧
      (get_emails_search gmailEnvAllHttpFail.search 5).snd = 5) ∧
    (get_emails gmailEnvSecondTry 5 = scanMessages gmailEnvSecondTry ["m1"] ∧
      (get_emails_search gmailEnvSecondTry.search 5).snd = 2) :=
  ⟨get_emails_retry_policy.1 gmailEnvAllHttpFail 5 (by decide)
      (fun j _ => rfl),
   get_emails_retry_policy.2 gmailEnvSecondTry 5 1 ["m1"] (by decide)
      (fun j hj => by
        have hj0 : j = 0 := Nat.lt_one_iff.mp hj
        subst hj0
        rfl)
      rfl⟩

/-! ## Concrete login environments -/

/-- Email backends that always report no code. -/
def eeInert : EmailEnv :=
  { gmailPre := fun _ => .ok none
    imapPre := fun _ _ => .ok none
    gmailPost := fun _ => .ok none
    imapPost := fun _ _ => .ok none }

/-- A browser surface presenting the plain `username → password → landmark`
flow, ending in a successful login. -/
def envSuccess : UIEnv :=
  { loginSpanFound := true, nextAfterUsername := true
    preCodeInput := false, nextAfterPreCode := true
    preEmailInput := false, nextAfterPreEmail := true
    passwordInput := true, loginButton := true
    postCodeInput := false, nextAfterPostCode := true
    postEmailInput := false, nextAfterPostEmail := true
    mfaInput := false, nextAfterMfa := true
    navBar := true
    cookies := [("ct0", "fresh"), ("auth_token", "fresh2")]
    headers := [("x-csrf-token", "fresh")] }

/-- A surface whose password input never renders. -/
def envPasswordTimeout : UIEnv := { envSuccess with passwordInput := false }

/-- A surface where the unguarded Next click after the username misses. -/
def envNextMissing : UIEnv := { envSuccess with nextAfterUsername := false }

/-- A surface that asks for an email confirmation code before the password. -/
def envPreCodeChallenge : UIEnv := { envSuccess with preCodeInput := true }

/-- An `imap_login` capability that always yields a session. -/
def imapLoginOk : String → String → Except PyExn ImapSession := fun _ _ => .ok ⟨1⟩

/-- A configuration with every flag off. -/
def cfgPlain : LoginConfig := ⟨false, false, false⟩

/-! ## C2: the entry point is a no-op on active accounts -/

/-- C2: for every account whose `active` flag is true, `login_alternative`
returns the account unchanged, whatever the configuration, IMAP capability,
browser surface or email backends — so neither the login state machine nor
any code retrieval can influence the result. -/
theorem login_alternative_noop_when_active (acc : Account)
    (cfg : Option LoginConfig)
    (imap_login : String → String → Except PyExn ImapSession)
    (envs : Nat → UIEnv) (ees : Nat → EmailEnv) (h : acc.active = true) :
    login_alternative acc cfg imap_login envs ees = .ok acc := by
  simp [login_alternative, h]

/-- A concrete already-active account. -/
def activeAccount : Account := { sampleAccount with active := true }

/-- Witness for C2: an active account passed through a surface that would
fail every attempt still comes back unchanged. -/
theorem login_alternative_noop_when_active_witness :
    activeAccount.active = true ∧
      login_alternative activeAccount none imapLoginOk
        (fun _ => envPasswordTimeout) (fun _ => eeInert) = .ok activeAccount :=
  ⟨rfl, login_alternative_noop_when_active activeAccount none imapLoginOk
    (fun _ => envPasswordTimeout) (fun _ => eeInert) rfl⟩

/-! ## C8: the challenge outcome is never partially valid -/

lemma code_challenge_ok_shape (found nextFound : Bool)
    (fetch : Except PyExn (Option String)) (k : Except PyExn LoginOutcome)
    (hk : ∀ r, k = .ok r → r.1.isSome = r.2.isSome) :
    ∀ r, code_challenge found nextFound fetch k = .ok r → r.1.isSome = r.2.isSome := by
  intro r h
  unfold code_challenge at h
  repeat' split at h
  all_goals first
    | exact hk r h
    | (injection h with h0; subst h0; rfl)
    | simp_all

lemma login_attempt_ok_shape (username password : String) (email : Option String)
    (mfa_code : Option String) (user_agent : Option String)
    (imap : Option ImapSession) (gcreds : Option GmailCredentials)
    (env : UIEnv) (ee : EmailEnv) :
    ∀ r, login_attempt username password email mfa_code user_agent imap gcreds env ee =
      .ok r → r.1.isSome = r.2.isSome := by
  intro r h
  unfold login_attempt at h
  split at h
  · simp_all
  · split at h
    · simp_all
    · refine code_challenge_ok_shape _ _ _ _ ?_ r h
      intro r1 h1
      split at h1
      · simp_all
      · split at h1
        · simp_all
        · refine code_challenge_ok_shape _ _ _ _ ?_ r1 h1
          intro r2 h2
          repeat' split at h2
          all_goals first
            | (injection h2 with h0; subst h0; rfl)
            | simp_all

lemma retryWithFallback_ok_shape {α : Type} (isR : PyExn → Bool) (fb : α)
    (P : α → Prop) (hfb : P fb) (l : List (Except PyExn α))
    (hl : ∀ a ∈ l, ∀ v, a = .ok v → P v) :
    ∀ v, (retryWithFallback isR fb l).fst = .ok v → P v := by
  induction l with
  | nil =>
    intro v h
    have h3 : (Except.ok fb : Except PyExn α) = .ok v := h
    injection h3 with h4
    rwa [← h4]
  | cons a rest ih =>
    intro v h
    cases hf : a with
    | ok w =>
      rw [hf] at h
      simp [retryWithFallback] at h
      rw [← h]
      exact hl a (List.mem_cons_self a rest) w hf
    | error e =>
      rw [hf] at h
      cases rest with
      | nil =>
        by_cases hre : isR e = true
        · simp [retryWithFallback, hre] at h
          rwa [← h]
        · simp [retryWithFallback, hre] at h
      | cons b rest2 =>
        by_cases hre : isR e = true
        · simp [retryWithFallback, hre] at h
          exact ih (fun x hx v2 hv2 => hl x (List.mem_cons_of_mem _ hx) v2 hv2) v h
        · simp [retryWithFallback, hre] at h

/-- C8: the value returned by `login_with_drissionpage` is never partially
valid: whenever it returns a pair (rather than raising), the cookies
component is present exactly when the headers component is. -/
theorem login_outcome_never_partial (username password : String)
    (email : Option String) (mfa_code : Option String)
    (user_agent : Option String) (imap : Option ImapSession)
    (gcreds : Option GmailCredentials)
    (envs : Nat → UIEnv) (ees : Nat → EmailEnv) :
    match login_with_drissionpage username password email mfa_code user_agent
        imap gcreds envs ees with
    | .ok r => r.1.isSome = r.2.isSome
    | .error _ => True := by
  unfold login_with_drissionpage
  cases hres : (retryWithFallback drissionRetryable (none, none)
      (login_flow_attempts username password email mfa_code user_agent imap
        gcreds envs ees)).fst with
  | error e => exact trivial
  | ok r =>
    refine retryWithFallback_ok_shape drissionRetryable (none, none)
      (fun v => v.1.isSome = v.2.isSome) rfl _ ?_ r hres
    intro a ha v hv
    obtain ⟨i, hi, rfl⟩ := List.mem_map.mp ha
    exact login_attempt_ok_shape username password email mfa_code user_agent
      imap gcreds (envs i) (ees i) v hv

/-! ## C7: attempt-level retry policy of `login_with_drissionpage` -/

/-- The scenario of the spec's retry property: the surface renders up to the
username step but the password input never appears (and no pre-password code
challenge intervenes). -/
def passwordNeverRenders (e : UIEnv) : Prop :=
  e.loginSpanFound = true ∧ e.nextAfterUsername = true ∧
    e.preCodeInput = false ∧ e.passwordInput = false

lemma login_attempt_password_timeout (username password : String)
    (email mfa_code user_agent : Option String) (imap : Option ImapSession)
    (gcreds : Option GmailCredentials) (env : UIEnv) (ee : EmailEnv)
    (h : passwordNeverRenders env) :
    login_attempt username password email mfa_code user_agent imap gcreds env ee =
      .error (PyExn.elementLoadError "Password input element not found") := by
  obtain ⟨h1, h2, h3, h4⟩ := h
  simp [login_attempt, code_challenge, h1, h2, h3, h4]

lemma login_attempt_next_missing (username password : String)
    (email mfa_code user_agent : Option String) (imap : Option ImapSession)
    (gcreds : Option GmailCredentials) (env : UIEnv) (ee : EmailEnv)
    (h1 : env.loginSpanFound = true) (h2 : env.nextAfterUsername = false) :
    login_attempt username password email mfa_code user_agent imap gcreds env ee =
      .error PyExn.elementNotFound := by
  simp [login_attempt, h1, h2]

/-- C7: the whole login attempt is retried only for the retryable classes
(`PageLoadError`, `ElementLoadError`), up to 3 attempts with a fixed delay;
when the password field never renders in any attempt, the call returns the
non-raising failure `(None, None)` after exactly 3 attempts; and a
non-retryable failure class (here the unguarded Next click's
`ElementNotFoundError`) is not retried: it is re-raised after exactly one
attempt. -/
theorem login_with_drissionpage_retry_policy (username password : String)
    (email mfa_code user_agent : Option String) (imap : Option ImapSession)
    (gcreds : Option GmailCredentials)
    (envs : Nat → UIEnv) (ees : Nat → EmailEnv)
    (h : ∀ i, i < 3 → passwordNeverRenders (envs i)) :
    login_with_drissionpage username password email mfa_code user_agent imap
        gcreds envs ees = .ok (none, none) ∧
    login_with_drissionpage_attempts_used username password email mfa_code
        user_agent imap gcreds envs ees = 3 ∧
    (∀ (envs2 : Nat → UIEnv) (ees2 : Nat → EmailEnv),
      (envs2 0).loginSpanFound = true → (envs2 0).nextAfterUsername = false →
      login_with_drissionpage username password email mfa_code user_agent imap
          gcreds envs2 ees2 = .error PyExn.elementNotFound ∧
        login_with_drissionpage_attempts_used username password email mfa_code
          user_agent imap gcreds envs2 ees2 = 1) := by
  have hmem : ∀ a ∈ login_flow_attempts username password email mfa_code
      user_agent imap gcreds envs ees, failedRetryably drissionRetryable a = true := by
    intro a ha
    obtain ⟨i, hi, rfl⟩ := List.mem_map.mp ha
    rw [login_attempt_password_timeout username password email mfa_code
      user_agent imap gcreds (envs i) (ees i) (h i (List.mem_range.mp hi))]
    rfl
  have hne : login_flow_attempts username password email mfa_code user_agent
      imap gcreds envs ees ≠ [] := by
    unfold login_flow_attempts
    simp
  have hall := retryWithFallback_all_fail drissionRetryable (none, none) _ hne hmem
  have hlen : (login_flow_attempts username password email mfa_code user_agent
      imap gcreds envs ees).length = 3 := by
    unfold login_flow_attempts
    simp
  refine ⟨?_, ?_, ?_⟩
  · unfold login_with_drissionpage
    rw [hall]
  · unfold login_with_drissionpage_attempts_used
    rw [hall, hlen]
  · intro envs2 ees2 hA hB
    have hhead := login_attempt_next_missing username password email mfa_code
      user_agent imap gcreds (envs2 0) (ees2 0) hA hB
    have hlist : login_flow_attempts username password email mfa_code
        user_agent imap gcreds envs2 ees2 =
        login_attempt username password email mfa_code user_agent imap gcreds
            (envs2 0) (ees2 0) ::
          login_attempt username password email mfa_code user_agent imap gcreds
            (envs2 1) (ees2 1) ::
          login_attempt username password email mfa_code user_agent imap gcreds
            (envs2 2) (ees2 2) :: [] := rfl
    have hfb := retryWithFallback_head_nonretryable drissionRetryable
      ((none, none) : LoginOutcome) PyExn.elementNotFound rfl
      (login_attempt username password email mfa_code user_agent imap gcreds
          (envs2 1) (ees2 1) ::
        login_attempt username password email mfa_code user_agent imap gcreds
          (envs2 2) (ees2 2) :: [])
    constructor
    · unfold login_with_drissionpage
      rw [hlist, hhead, hfb]
    · unfold login_with_drissionpage_attempts_used
      rw [hlist, hhead, hfb]

/-- Witness for C7: a password-timeout surface family yields `(None, None)`
after exactly 3 attempts; a missing unguarded Next click raises after exactly
one attempt. -/
theorem login_with_drissionpage_retry_policy_witness :
    login_with_drissionpage "u" "p" (some "e@x") none (some "UA") none none
        (fun _ => envPasswordTimeout) (fun _ => eeInert) = .ok (none, none) ∧
    login_with_drissionpage_attempts_used "u" "p" (some "e@x") none (some "UA")
        none none (fun _ => envPasswordTimeout) (fun _ => eeInert) = 3 ∧
    login_with_drissionpage "u" "p" (some "e@x") none (some "UA") none none
        (fun _ => envNextMissing) (fun _ => eeInert) = .error PyExn.elementNotFound ∧
    login_with_drissionpage_attempts_used "u" "p" (some "e@x") none (some "UA")
        none none (fun _ => envNextMissing) (fun _ => eeInert) = 1 := by
  have h := login_with_drissionpage_retry_policy "u" "p" (some "e@x") none
    (some "UA") none none (fun _ => envPasswordTimeout) (fun _ => eeInert)
    (fun i _ => ⟨rfl, rfl, rfl, rfl⟩)
  have h3 := h.2.2 (fun _ => envNextMissing) (fun _ => eeInert) rfl rfl
  exact ⟨h.1, h.2.1, h3.1, h3.2⟩

/-! ## C4: email-code strategy selection -/

/-- A concrete credentials bundle. -/
def credsSample : GmailCredentials :=
  { token := "tok", refresh_token := "ref", client_id := "cid"
    client_secret := "sec"
    scopes := ["https://www.googleapis.com/auth/gmail.readonly"]
    token_uri := "https://oauth2.googleapis.com/token"
    universe_domain := "googleapis.com", account := "", expiry := "" }

/-- A Gmail backend probe returning a fixed code. -/
def gfProbe : GmailCredentials → Except PyExn (Option String) :=
  fun _ => .ok (some "111111")

/-- An IMAP backend probe returning a fixed code. -/
def imfProbe : ImapSession → String → Except PyExn (Option String) :=
  fun _ _ => .ok (some "222222")

/-- C4: `get_email_code` selects the retrieval strategy from the provided
credentials — the Gmail (mailbox-API) channel whenever credentials are
present, else IMAP when a session and a truthy email address are available,
else no code at all; and inside a login driven by `login_alternative` (which
passes `imap=None` and, without gmail credentials, `gmail_credentials=None`
to the driver), an email-code challenge with neither channel available makes
the attempt return the failure outcome `(None, None)`. -/
theorem email_code_strategy_selection :
    (∀ (u : String) (creds : GmailCredentials) (imap : Option ImapSession)
        (email : Option String)
        (gf : GmailCredentials → Except PyExn (Option String))
        (imf : ImapSession → String → Except PyExn (Option String)),
      get_email_code u (some creds) imap email gf imf = gf creds) ∧
    (∀ (u : String) (s : ImapSession) (e : String)
        (gf : GmailCredentials → Except PyExn (Option String))
        (imf : ImapSession → String → Except PyExn (Option String)),
      get_email_code u none (some s) (some e) gf imf =
        if pyTruthyStr e then imf s e else .ok none) ∧
    (∀ (u : String) (email : Option String)
        (gf : GmailCredentials → Except PyExn (Option String))
        (imf : ImapSession → String → Except PyExn (Option String)),
      get_email_code u none none email gf imf = .ok none) ∧
    (∀ (u : String) (s : ImapSession)
        (gf : GmailCredentials → Except PyExn (Option String))
        (imf : ImapSession → String → Except PyExn (Option String)),
      get_email_code u none (some s) none gf imf = .ok none) ∧
    (∀ (username password : String) (email mfa_code user_agent : Option String)
        (envs : Nat → UIEnv) (ees : Nat → EmailEnv),
      (envs 0).loginSpanFound = true → (envs 0).nextAfterUsername = true →
      (envs 0).preCodeInput = true →
      login_with_drissionpage username password email mfa_code user_agent
        none none envs ees = .ok (none, none)) := by
  refine ⟨fun u creds imap email gf imf => rfl,
          fun u s e gf imf => rfl,
          fun u email gf imf => by cases email <;> rfl,
          fun u s gf imf => rfl,
          ?_⟩
  intro username password email mfa_code user_agent envs ees h1 h2 h3
  have hatt : login_attempt username password email mfa_code user_agent none
      none (envs 0) (ees 0) = .ok (none, none) := by
    simp [login_attempt, code_challenge, get_email_code, h1, h2, h3,
      pyTruthyOptStr]
  have hlist : login_flow_attempts username password email mfa_code user_agent
      none none envs ees =
      login_attempt username password email mfa_code user_agent none none
          (envs 0) (ees 0) ::
        login_attempt username password email mfa_code user_agent none none
          (envs 1) (ees 1) ::
        login_attempt username password email mfa_code user_agent none none
          (envs 2) (ees 2) :: [] := rfl
  unfold login_with_drissionpage
  rw [hlist, hatt, retryWithFallback_head_ok]

/-- Witness for C4 at concrete inputs: Gmail preferred when present, IMAP
when only it is available, no code when no channel is available, and a
pre-password code challenge with no channel fails the attempt. -/
theorem email_code_strategy_selection_witness :
    get_email_code "u" (some credsSample) (some ⟨1⟩) (some "a@b") gfProbe imfProbe =
        gfProbe credsSample ∧
    get_email_code "u" none (some ⟨1⟩) (some "a@b") gfProbe imfProbe =
        (if pyTruthyStr "a@b" then imfProbe ⟨1⟩ "a@b" else .ok none) ∧
    get_email_code "u" none none (some "a@b") gfProbe imfProbe = .ok none ∧
    get_email_code "u" none (some ⟨1⟩) none gfProbe imfProbe = .ok none ∧
    login_with_drissionpage "u" "p" (some "a@b") none (some "UA") none none
        (fun _ => envPreCodeChallenge) (fun _ => eeInert) = .ok (none, none) :=
  ⟨email_code_strategy_selection.1 "u" credsSample (some ⟨1⟩) (some "a@b")
      gfProbe imfProbe,
   email_code_strategy_selection.2.1 "u" ⟨1⟩ "a@b" gfProbe imfProbe,
   email_code_strategy_selection.2.2.1 "u" (some "a@b") gfProbe imfProbe,
   email_code_strategy_selection.2.2.2.1 "u" ⟨1⟩ gfProbe imfProbe,
   email_code_strategy_selection.2.2.2.2 "u" "p" (some "a@b") none (some "UA")
      (fun _ => envPreCodeChallenge) (fun _ => eeInert) rfl rfl rfl⟩

/-! ## C9: a failed attempt only clears the `active` flag -/

/-- C9: when the driver completes with a failure outcome (no truthy
cookies/headers pair), `login_alternative` returns the account with
`active = false` and every other field exactly as it was. -/
theorem login_alternative_failure_frame (acc : Account)
    (cfg : Option LoginConfig)
    (imap_login : String → String → Except PyExn ImapSession)
    (envs : Nat → UIEnv) (ees : Nat → EmailEnv)
    (hact : acc.active = false)
    (s : ImapSession)
    (himap : imap_login acc.email acc.email_password = .ok s)
    (c h : Option (List (String × String)))
    (hdrv : login_with_drissionpage acc.username acc.password (some acc.email)
      acc.mfa_code (some acc.user_agent) none
      (gmailCredSelect (cfg.getD defaultLoginConfig) acc) envs ees = .ok (c, h))
    (hfail : (pyTruthyDict c && pyTruthyDict h) = false) :
    login_alternative acc cfg imap_login envs ees =
        .ok { acc with active := false } ∧
    ({ acc with active := false } : Account).username = acc.username ∧
    ({ acc with active := false } : Account).password = acc.password ∧
    ({ acc with active := false } : Account).email = acc.email ∧
    ({ acc with active := false } : Account).email_password = acc.email_password ∧
    ({ acc with active := false } : Account).user_agent = acc.user_agent ∧
    ({ acc with active := false } : Account).locks = acc.locks ∧
    ({ acc with active := false } : Account).stats = acc.stats ∧
    ({ acc with active := false } : Account).headers = acc.headers ∧
    ({ acc with active := false } : Account).cookies = acc.cookies ∧
    ({ acc with active := false } : Account).gmail_credentials = acc.gmail_credentials ∧
    ({ acc with active := false } : Account).mfa_code = acc.mfa_code ∧
    ({ acc with active := false } : Account).proxy = acc.proxy ∧
    ({ acc with active := false } : Account).error_msg = acc.error_msg ∧
    ({ acc with active := false } : Account).last_used = acc.last_used ∧
    ({ acc with active := false } : Account).tx = acc.tx := by
  refine ⟨?_, rfl, rfl, rfl, rfl, rfl, rfl, rfl, rfl, rfl, rfl, rfl, rfl,
    rfl, rfl, rfl⟩
  by_cases hc : ((cfg.getD defaultLoginConfig).email_first &&
      !(cfg.getD defaultLoginConfig).manual) = true
  · simp [login_alternative, hact, hc, himap, hdrv, hfail]
  · simp [login_alternative, hact, hc, hdrv, hfail]

/-- Witness for C9: a concrete inactive account run against a surface whose
password input never renders keeps every field except `active`. -/
theorem login_alternative_failure_frame_witness :
    login_alternative sampleAccount (some cfgPlain) imapLoginOk
        (fun _ => envPasswordTimeout) (fun _ => eeInert) =
      .ok { sampleAccount with active := false } :=
  (login_alternative_failure_frame sampleAccount (some cfgPlain) imapLoginOk
    (fun _ => envPasswordTimeout) (fun _ => eeInert) rfl ⟨1⟩ rfl none none
    (by decide) rfl).1

/-! ## C1: what the entry point actually communicates -/

/-- `sampleAccount` after the successful `envSuccess` login: `active` set,
session artifacts installed — and `error_msg` still carrying its old value. -/
def accAfterSuccess : Account :=
  { sampleAccount with
    active := true
    headers := [("x-csrf-token", "fresh")]
    cookies := [("ct0", "fresh"), ("auth_token", "fresh2")] }

/-- A concrete inactive account with no pre-existing diagnostic. -/
def accNoMsg : Account := { sampleAccount with error_msg := none }

/-- C1 counterexample: (i) a successful login does NOT clear `error_msg`
(the old diagnostic survives); (ii) a failed attempt does NOT record any
diagnostic (`error_msg` stays `None`); (iii) a non-retryable exception from
the attempt (the unguarded Next click) escapes `login_alternative` to its
caller instead of being converted into a returned record. -/
theorem login_alternative_error_msg_counterexample :
    (login_alternative sampleAccount (some cfgPlain) imapLoginOk
        (fun _ => envSuccess) (fun _ => eeInert) = .ok accAfterSuccess ∧
      accAfterSuccess.active = true ∧
      accAfterSuccess.error_msg = some "previous error") ∧
    (login_alternative accNoMsg (some cfgPlain) imapLoginOk
        (fun _ => envPasswordTimeout) (fun _ => eeInert) =
          .ok { accNoMsg with active := false } ∧
      ({ accNoMsg with active := false } : Account).error_msg = none) ∧
    (sampleAccount.active = false ∧
      login_alternative sampleAccount (some cfgPlain) imapLoginOk
        (fun _ => envNextMissing) (fun _ => eeInert) =
          .error PyExn.elementNotFound) :=
  ⟨⟨by decide, by decide, by decide⟩, ⟨by decide, by decide⟩,
    ⟨by decide, by decide⟩⟩

/-- C1 amended: for every inactive account, when the IMAP pre-step succeeds
and the driver completes without raising, the outcome is communicated only
through the returned record: a truthy cookies/headers pair sets
`active = true` and installs the session artifacts, anything else sets
`active = false`; `error_msg` is never modified on either path (no
diagnostic recorded on failure, none cleared on success); a raising driver
(non-retryable failure class) propagates its exception out of
`login_alternative`. -/
theorem login_alternative_outcome (acc : Account) (cfg : Option LoginConfig)
    (imap_login : String → String → Except PyExn ImapSession)
    (envs : Nat → UIEnv) (ees : Nat → EmailEnv)
    (hact : acc.active = false)
    (s : ImapSession)
    (himap : imap_login acc.email acc.email_password = .ok s) :
    (∀ (c h : Option (List (String × String))),
      login_with_drissionpage acc.username acc.password (some acc.email)
          acc.mfa_code (some acc.user_agent) none
          (gmailCredSelect (cfg.getD defaultLoginConfig) acc) envs ees = .ok (c, h) →
      login_alternative acc cfg imap_login envs ees =
        .ok (if pyTruthyDict c && pyTruthyDict h then
              { acc with
                active := true
                headers := (h.getD []).map (fun kv => (kv.1, kv.2))
                cookies := (c.getD []).map (fun kv => (kv.1, kv.2)) }
            else { acc with active := false })) ∧
    (∀ e : PyExn,
      login_with_drissionpage acc.username acc.password (some acc.email)
          acc.mfa_code (some acc.user_agent) none
          (gmailCredSelect (cfg.getD defaultLoginConfig) acc) envs ees = .error e →
      login_alternative acc cfg imap_login envs ees = .error e) ∧
    (∀ acc' : Account,
      login_alternative acc cfg imap_login envs ees = .ok acc' →
      acc'.error_msg = acc.error_msg) := by
  refine ⟨?_, ?_, ?_⟩
  · intro c h hdrv
    by_cases hc : ((cfg.getD defaultLoginConfig).email_first &&
        !(cfg.getD defaultLoginConfig).manual) = true
    · by_cases ht : (pyTruthyDict c && pyTruthyDict h) = true
      · simp [login_alternative, hact, hc, himap, hdrv, ht]
      · simp [login_alternative, hact, hc, himap, hdrv, ht]
    · by_cases ht : (pyTruthyDict c && pyTruthyDict h) = true
      · simp [login_alternative, hact, hc, hdrv, ht]
      · simp [login_alternative, hact, hc, hdrv, ht]
  · intro e hdrv
    by_cases hc : ((cfg.getD defaultLoginConfig).email_first &&
        !(cfg.getD defaultLoginConfig).manual) = true
    · simp [login_alternative, hact, hc, himap, hdrv]
    · simp [login_alternative, hact, hc, hdrv]
  · intro acc' hres
    by_cases hc : ((cfg.getD defaultLoginConfig).email_first &&
        !(cfg.getD defaultLoginConfig).manual) = true
    all_goals
      first
        | simp only [login_alternative, hact, hc, himap] at hres
        | simp only [login_alternative, hact, hc] at hres
    all_goals
      cases hdr : login_with_drissionpage acc.username acc.password
          (some acc.email) acc.mfa_code (some acc.user_agent) none
          (gmailCredSelect (cfg.getD defaultLoginConfig) acc) envs ees with
      | error e =>
        rw [hdr] at hres
        simp at hres
      | ok p =>
        obtain ⟨c, h⟩ := p
        rw [hdr] at hres
        by_cases ht : (pyTruthyDict c && pyTruthyDict h) = true
        all_goals
          simp [ht] at hres
        all_goals
          rw [← hres]

/-- Witness for C1's amended statement: the concrete successful login keeps
the pre-existing diagnostic untouched. -/
theorem login_alternative_outcome_witness :
    login_alternative sampleAccount (some cfgPlain) imapLoginOk
        (fun _ => envSuccess) (fun _ => eeInert) = .ok accAfterSuccess ∧
      accAfterSuccess.error_msg = sampleAccount.error_msg := by
  have h := login_alternative_outcome sampleAccount (some cfgPlain) imapLoginOk
    (fun _ => envSuccess) (fun _ => eeInert) rfl ⟨1⟩ rfl
  have h1 := h.1 (some [("ct0", "fresh"), ("auth_token", "fresh2")])
    (some [("x-csrf-token", "fresh")]) (by decide)
  have h2 : login_alternative sampleAccount (some cfgPlain) imapLoginOk
      (fun _ => envSuccess) (fun _ => eeInert) = .ok accAfterSuccess :=
    h1.trans (by decide)
  exact ⟨h2, h.2.2 accAfterSuccess h2⟩

end Twscrape
